import Mathlib

/-!
Verification of the API gateway of the Task-Management-System microservices
repository. The development embeds the gateway request-forwarding handlers
(routes/auth.js, routes/task.js, routes/notification.js,
routes/reporting.js, routes/admin.js), the route tables they register,
the mount table and 404 handler of
api-gateway/server.js, and the gateway health endpoint, as pure Lean
functions, and proves the specification claims about them.
-/

namespace Gateway

/-- Model of the JSON values that flow through the gateway: request and
response bodies. Mirrors what express json parsing and the axios default
response transform produce. Arrays are omitted: no claim needs them. -/
inductive Json where
  | null : Json
  | bool (b : Bool) : Json
  | num (n : Int) : Json
  | str (s : String) : Json
  | obj (fields : List (String × Json)) : Json

/-- One character of JSON string escaping, as JSON.stringify performs it
for the characters that occur in this development. -/
def escChar (c : Char) : String :=
  if c = '"' then "\\\"" else if c = '\\' then "\\\\" else String.singleton c

/-- A JSON string literal: quoted and escaped. -/
def jstr (s : String) : String :=
  "\"" ++ String.join (s.data.map escChar) ++ "\""

mutual

/-- Serialize a Json value to its canonical compact text, as
JSON.stringify does inside the express res.json method. -/
def render : Json → String
  | .null => "null"
  | .bool true => "true"
  | .bool false => "false"
  | .num n => toString n
  | .str s => jstr s
  | .obj fs => "\x7b" ++ renderFields fs ++ "\x7d"

/-- Serialize the field list of a JSON object, comma separated. -/
def renderFields : List (String × Json) → String
  | [] => ""
  | [(k, v)] => jstr k ++ ":" ++ render v
  | (k, v) :: f :: fs => jstr k ++ ":" ++ render v ++ "," ++ renderFields (f :: fs)

end

/-- Look a key up in a JSON object field list. -/
def fieldLookup : List (String × Json) → String → Option Json
  | [], _ => none
  | (k0, v0) :: fs, k => if k0 = k then some v0 else fieldLookup fs k

/-- Look a field up in a JSON object; none on non-objects. -/
def jsonField : Json → String → Option Json
  | .obj fs, k => fieldLookup fs k
  | _, _ => none

/-- Read a header value from a header map (req.headers[k]); the node http
layer presents header names lower-cased, one entry per name. -/
def getHeader : List (String × String) → String → Option String
  | [], _ => none
  | (k0, v0) :: t, k => if k0 = k then some v0 else getHeader t k

/-- Write a header value, overriding an existing entry of the same name,
as a JS object spread followed by an explicit key does. -/
def setHeader : List (String × String) → String → String → List (String × String)
  | [], k, v => [(k, v)]
  | (k0, v0) :: t, k, v =>
      if k0 = k then setHeader t k v else (k0, v0) :: setHeader t k v

theorem getHeader_setHeader (hs : List (String × String)) (k v q : String) :
    getHeader (setHeader hs k v) q = if q = k then some v else getHeader hs q := by
  induction hs with
  | nil =>
      by_cases h : q = k
      · simp [getHeader, setHeader, h]
      · simp [getHeader, setHeader, h, Ne.symm h]
  | cons p t ih =>
      obtain ⟨k0, v0⟩ := p
      by_cases hk : k0 = k
      · subst hk
        by_cases hq : q = k0
        · subst hq
          simp [getHeader, setHeader, ih]
        · simp [getHeader, setHeader, hq, Ne.symm hq, ih]
      · by_cases hq : q = k
        · subst hq
          simp [getHeader, setHeader, hk, ih]
        · simp [getHeader, setHeader, hk, hq, ih]

/-- The five backend services the gateway forwards to. -/
inductive ServiceId where
  | auth
  | task
  | notification
  | reporting
  | admin
deriving DecidableEq

/-- The environment variables the gateway reads: one base URL override per
service (process.env.AUTH_SERVICE_URL and so on), none meaning unset. -/
structure Env where
  AUTH_SERVICE_URL : Option String
  TASK_SERVICE_URL : Option String
  NOTIFICATION_SERVICE_URL : Option String
  REPORTING_SERVICE_URL : Option String
  ADMIN_SERVICE_URL : Option String

/-- The fixed localhost default each route file falls back to when its
environment variable is unset. -/
def defaultBaseURL : ServiceId → String
  | .auth => "http://localhost:3001"
  | .task => "http://localhost:3002"
  | .notification => "http://localhost:3003"
  | .reporting => "http://localhost:3004"
  | .admin => "http://localhost:3005"

/-- The environment variable consulted for each service. -/
def envBaseURL (env : Env) : ServiceId → Option String
  | .auth => env.AUTH_SERVICE_URL
  | .task => env.TASK_SERVICE_URL
  | .notification => env.NOTIFICATION_SERVICE_URL
  | .reporting => env.REPORTING_SERVICE_URL
  | .admin => env.ADMIN_SERVICE_URL

/-- Base URL resolution, `process.env.X_SERVICE_URL || default`, evaluated
once at module load in each route file (a const, never reassigned); the
same expression appears in the gateway health endpoint. -/
def baseURL (env : Env) (s : ServiceId) : String :=
  (envBaseURL env s).getD (defaultBaseURL s)

/-- The display name each of the five route files uses in its
unavailability error string ("Auth Service Unavailable" and so on). -/
def displayName : ServiceId → String
  | .auth => "Auth Service"
  | .task => "Task Service"
  | .notification => "Notification Service"
  | .reporting => "Reporting Service"
  | .admin => "Admin Service"

/-- The message field each of the five route files puts in its
unavailability body. -/
def unavailMessage : ServiceId → String
  | .auth => "Unable to connect to authentication service"
  | .task => "Unable to connect to task management service"
  | .notification => "Unable to connect to notification service"
  | .reporting => "Unable to connect to reporting service"
  | .admin => "Unable to connect to admin service"

/-- An inbound request as the express handler sees it: method, path
without its query part, the parsed query, the (lower-cased) header map,
the parsed JSON body, and the fields req.ip, req.protocol and the host
header value returned by req.get. -/
structure Request where
  method : String
  path : String
  query : List (String × String)
  headers : List (String × String)
  body : Json
  ip : String
  protocol : String
  hostHdr : String

/-- Query-string serialization: pairs joined as k=v with ampersands, the
form both express and the axios params serializer produce for the flat
string-valued queries considered here. -/
def serializeQuery : List (String × String) → String
  | [] => ""
  | [(k, v)] => k ++ "=" ++ v
  | (k, v) :: p :: ps => k ++ "=" ++ v ++ "&" ++ serializeQuery (p :: ps)

/-- The query part of a URL: empty, or a question mark and the
serialized parameters. -/
def queryText (q : List (String × String)) : String :=
  if q.isEmpty then "" else "?" ++ serializeQuery q

/-- req.originalUrl: the full inbound URL, path plus query part. -/
def originalUrl (req : Request) : String :=
  req.path ++ queryText req.query

/-- The axios URL builder: when params are given, their serialization is
appended to the request URL, with an ampersand when the URL already
contains a question mark and a question mark otherwise. -/
def buildAxiosURL (target : String) (params : List (String × String)) : String :=
  if params.isEmpty then target
  else if target.data.contains '?' then target ++ "&" ++ serializeQuery params
  else target ++ "?" ++ serializeQuery params

/-- The outbound request the handler hands to axios: the config object
with method, built URL, headers and data. -/
structure OutboundCall where
  method : String
  url : String
  headers : List (String × String)
  body : Json

/-- The response body as the axios default transform delivers it to the
handler: a body that is valid JSON text arrives parsed (jsonData, with
the original text being the serialization of the value), any other body
text arrives as the raw string (textData). -/
inductive AxiosData where
  | jsonData (j : Json)
  | textData (s : String)

/-- The value the handler sees in response.data. -/
def dataJson : AxiosData → Json
  | .jsonData j => j
  | .textData s => .str s

/-- The body text the backend actually sent, byte-for-byte. -/
def backendBytes : AxiosData → String
  | .jsonData j => render j
  | .textData s => s

/-- What the network did with one outbound call: either a well-formed
HTTP response with some status and body (any status, including 4xx/5xx),
or no response at all (connection refused, DNS failure, timeout). -/
inductive DownstreamOutcome where
  | response (status : Nat) (data : AxiosData)
  | noResponse (reason : String)

/-- The response the gateway sends back to its caller. -/
structure HttpResponse where
  status : Nat
  body : String

/-- The headers the handler attaches to the outbound call: the inbound
header object spread, then the three x-forwarded entries set on top. -/
def fwdHeaders (req : Request) : List (String × String) :=
  setHeader
    (setHeader
      (setHeader req.headers "x-forwarded-for" req.ip)
      "x-forwarded-proto" req.protocol)
    "x-forwarded-host" req.hostHdr

/-- The JSON body of the unavailability error each route file synthesizes
in its else branch. -/
def unavailableBody (s : ServiceId) : Json :=
  .obj [("error", .str (displayName s ++ " Unavailable")),
        ("message", .str (unavailMessage s))]

/-- The axios config the handler builds: targetUrl is the service base
URL concatenated with req.url (the mount-stripped path including its
query part, supplied here as stripped plus the query text), params is
req.query, headers are the forwarded headers, data is the body. -/
def mkCall (env : Env) (s : ServiceId) (stripped : String) (req : Request) :
    OutboundCall :=
  { method := req.method
    url := buildAxiosURL (baseURL env s ++ (stripped ++ queryText req.query)) req.query
    headers := fwdHeaders req
    body := req.body }

/-- How the handler turns the downstream outcome into the response it
sends: on a response with any status the try branch (2xx) and the
error.response branch (non-2xx) both execute
res.status(status).json(data), so they collapse into one case; with no
response at all the else branch sends a 500 with the unavailability
body. -/
def relayOutcome (s : ServiceId) : DownstreamOutcome → HttpResponse
  | .response st d => { status := st, body := render (dataJson d) }
  | .noResponse _ => { status := 500, body := render (unavailableBody s) }

/-- One forwarding handler invocation (forwardToAuthService,
forwardToTaskService, forwardToNotificationService,
forwardToReportingService, forwardToAdminService
are textually identical up to the service constants): build the axios
config, perform the single call, translate the outcome. The second
component collects the outbound calls made. -/
def forwardToService (env : Env) (s : ServiceId)
    (net : OutboundCall → DownstreamOutcome) (stripped : String)
    (req : Request) : HttpResponse × List OutboundCall :=
  let call := mkCall env s stripped req
  (relayOutcome s (net call), [call])

/-- One route registration on an express router: an HTTP method and a
path pattern, given as its segments, a segment starting with a colon
being a parameter. -/
structure RouteRule where
  method : String
  pattern : List String

/-- Split a character list on slashes, dropping empty pieces; acc holds
the current segment reversed. -/
def splitSegsAux : List Char → List Char → List String
  | [], acc => if acc.isEmpty then [] else [String.mk acc.reverse]
  | c :: cs, acc =>
      if c = '/' then
        (if acc.isEmpty then [] else [String.mk acc.reverse]) ++ splitSegsAux cs []
      else splitSegsAux cs (c :: acc)

/-- The path segments of a URL path: split on slashes, empty pieces
dropped. -/
def segsOf (p : String) : List String :=
  splitSegsAux p.data []

/-- Whether a pattern segment is a parameter (starts with a colon). -/
def isParamSeg : List Char → Bool
  | ':' :: _ => true
  | _ => false

/-- Express segment matching: a parameter segment matches any nonempty
segment, a literal one matches character for character. -/
def segMatch (pat seg : String) : Bool :=
  (isParamSeg pat.data && seg != "") || pat == seg

/-- A pattern matches a path when the segments align one to one. -/
def patMatch : List String → List String → Bool
  | [], [] => true
  | p :: ps, s :: ss => segMatch p s && patMatch ps ss
  | _, _ => false

/-- Whether some registration of a router accepts the method and path. -/
def routerMatches (rules : List RouteRule) (method : String)
    (segs : List String) : Bool :=
  rules.any (fun r => r.method == method && patMatch r.pattern segs)

/-- The registrations of routes/auth.js. -/
def authTable : List RouteRule :=
  [⟨"POST", ["register"]⟩, ⟨"POST", ["login"]⟩, ⟨"POST", ["logout"]⟩,
   ⟨"POST", ["refresh-token"]⟩, ⟨"GET", ["profile"]⟩, ⟨"PUT", ["profile"]⟩,
   ⟨"POST", ["forgot-password"]⟩, ⟨"POST", ["reset-password"]⟩,
   ⟨"POST", ["verify-email"]⟩]

/-- The registrations of routes/task.js. -/
def taskTable : List RouteRule :=
  [⟨"GET", []⟩, ⟨"POST", []⟩, ⟨"GET", [":id"]⟩, ⟨"PUT", [":id"]⟩,
   ⟨"DELETE", [":id"]⟩, ⟨"PATCH", [":id", "status"]⟩,
   ⟨"PATCH", [":id", "assign"]⟩, ⟨"GET", ["user", ":userId"]⟩,
   ⟨"GET", ["project", ":projectId"]⟩, ⟨"POST", [":id", "comments"]⟩,
   ⟨"GET", [":id", "comments"]⟩]

/-- The registrations of routes/notification.js. -/
def notificationTable : List RouteRule :=
  [⟨"POST", ["send-email"]⟩, ⟨"POST", ["send-sms"]⟩, ⟨"POST", ["send-push"]⟩,
   ⟨"GET", ["templates"]⟩, ⟨"POST", ["templates"]⟩,
   ⟨"PUT", ["templates", ":id"]⟩, ⟨"DELETE", ["templates", ":id"]⟩,
   ⟨"GET", ["history"]⟩, ⟨"GET", ["history", ":id"]⟩]

/-- The registrations of routes/admin.js. -/
def adminTable : List RouteRule :=
  [⟨"GET", ["users"]⟩, ⟨"GET", ["users", ":id"]⟩, ⟨"PUT", ["users", ":id"]⟩,
   ⟨"DELETE", ["users", ":id"]⟩, ⟨"POST", ["users", ":id", "activate"]⟩,
   ⟨"POST", ["users", ":id", "deactivate"]⟩, ⟨"GET", ["system", "health"]⟩,
   ⟨"GET", ["system", "logs"]⟩, ⟨"GET", ["system", "metrics"]⟩,
   ⟨"POST", ["system", "backup"]⟩, ⟨"GET", ["audit-logs"]⟩,
   ⟨"GET", ["audit-logs", ":id"]⟩]

/-- The registrations of routes/reporting.js. -/
def reportingTable : List RouteRule :=
  [⟨"GET", ["dashboard"]⟩, ⟨"GET", ["tasks", "summary"]⟩,
   ⟨"GET", ["users", "performance"]⟩, ⟨"GET", ["projects", "status"]⟩,
   ⟨"POST", ["generate-report"]⟩, ⟨"GET", ["reports"]⟩,
   ⟨"GET", ["reports", ":id"]⟩, ⟨"GET", ["analytics", "task-completion"]⟩,
   ⟨"GET", ["analytics", "user-productivity"]⟩,
   ⟨"GET", ["analytics", "project-timeline"]⟩]

/-- The route table of each mounted router. -/
def gatewayRouters : ServiceId → List RouteRule
  | .auth => authTable
  | .task => taskTable
  | .notification => notificationTable
  | .reporting => reportingTable
  | .admin => adminTable

/-- The mount table of api-gateway/server.js, in declaration order. -/
def mounts : List (String × ServiceId) :=
  [("/api/auth", ServiceId.auth), ("/api/tasks", ServiceId.task),
   ("/api/notifications", ServiceId.notification),
   ("/api/reports", ServiceId.reporting), ("/api/admin", ServiceId.admin)]

/-- Consume the mount characters from the front of the path; the
remainder matches only when it begins with a slash. -/
def mountRemainder : List Char → List Char → Option (List Char)
  | [], rest =>
      match rest with
      | '/' :: _ => some rest
      | _ => none
  | _ :: _, [] => none
  | c :: cs, d :: ds => if c = d then mountRemainder cs ds else none

/-- Express mount stripping: a path equal to the mount becomes the root
path, a path continuing past the mount with a slash loses the mount
piece, anything else does not match the mount. Inside the mounted router
req.url is this stripped remainder. -/
def stripMount (m p : String) : Option String :=
  if p = m then some "/"
  else (mountRemainder m.data p.data).map String.mk

/-- Walk the mount table in order; the first mount whose router accepts
the method and stripped path wins; a router that accepts nothing falls
through, eventually to the 404 handler. -/
def findForward (routers : ServiceId → List RouteRule) :
    List (String × ServiceId) → String → String → Option (ServiceId × String)
  | [], _, _ => none
  | (m, s) :: rest, method, path =>
      match stripMount m path with
      | some r =>
          if routerMatches (routers s) method (segsOf r) then some (s, r)
          else findForward routers rest method path
      | none => findForward routers rest method path

/-- The body the gateway health endpoint sends: a static status object
listing the configured base URL of every service; now stands for the
timestamp the handler formats. -/
def healthBody (env : Env) (now : String) : Json :=
  .obj [("status", .str "OK"),
        ("message", .str "API Gateway is running"),
        ("timestamp", .str now),
        ("services", .obj [
          ("auth", .str (baseURL env .auth)),
          ("task", .str (baseURL env .task)),
          ("notification", .str (baseURL env .notification)),
          ("reporting", .str (baseURL env .reporting)),
          ("admin", .str (baseURL env .admin))])]

/-- The body of the catch-all 404 handler of server.js. -/
def notFoundBody (req : Request) : Json :=
  .obj [("error", .str "Route not found"),
        ("message", .str ("Cannot " ++ req.method ++ " " ++ originalUrl req))]

/-- The gateway request pipeline of server.js: the health endpoint, then
the five mounted routers, then the catch-all 404. net says what the
network does with each outbound call; the second component records the
outbound calls the gateway performed for this inbound request. -/
def gatewayDispatch (env : Env) (routers : ServiceId → List RouteRule)
    (net : OutboundCall → DownstreamOutcome) (now : String) (req : Request) :
    HttpResponse × List OutboundCall :=
  if req.method = "GET" ∧ req.path = "/health" then
    ({ status := 200, body := render (healthBody env now) }, [])
  else
    match findForward routers mounts req.method req.path with
    | some (s, stripped) => forwardToService env s net stripped req
    | none => ({ status := 404, body := render (notFoundBody req) }, [])

/-- An environment with every service URL variable unset. -/
def envDefault : Env := ⟨none, none, none, none, none⟩

/-- A network where every backend is unreachable: no HTTP response. -/
def netRefused : OutboundCall → DownstreamOutcome :=
  fun _ => .noResponse "ECONNREFUSED"

/-- A network whose backend answers 404 with a plain text body that is
not valid JSON. -/
def netText404 : OutboundCall → DownstreamOutcome :=
  fun _ => .response 404 (.textData "hello")

/-- A network whose backend answers 201 with a JSON body. -/
def netJson201 : OutboundCall → DownstreamOutcome :=
  fun _ => .response 201 (.jsonData (.obj [("ok", .bool true)]))

/-- A concrete login request on the auth mount. -/
def reqLogin : Request :=
  { method := "POST", path := "/api/auth/login", query := []
    headers := [("host", "localhost:3000")], body := .obj [("email", .str "u")]
    ip := "1.2.3.4", protocol := "http", hostHdr := "localhost:3000" }

/-- The spec scenario request: GET /api/tasks/abc123?verbose=true. -/
def reqTaskQuery : Request :=
  { method := "GET", path := "/api/tasks/abc123", query := [("verbose", "true")]
    headers := [("host", "localhost:3000"), ("authorization", "Bearer tok")]
    body := .null, ip := "1.2.3.4", protocol := "http", hostHdr := "localhost:3000" }

/-- A concrete admin request. -/
def reqUsers : Request :=
  { method := "GET", path := "/api/admin/users", query := [], headers := []
    body := .null, ip := "9.9.9.9", protocol := "http", hostHdr := "localhost:3000" }

/-- A concrete request for the gateway health endpoint. -/
def reqHealth : Request :=
  { method := "GET", path := "/health", query := [], headers := []
    body := .null, ip := "1.1.1.1", protocol := "http", hostHdr := "localhost:3000" }

/-- A concrete request no route table entry matches. -/
def reqUnknown : Request :=
  { method := "GET", path := "/api/unknown", query := [], headers := []
    body := .null, ip := "1.1.1.1", protocol := "http", hostHdr := "localhost:3000" }

/-- Closed form of a lookup in the forwarded header map: the three
x-forwarded entries shadow, everything else reads through to the inbound
headers. -/
theorem getHeader_fwdHeaders (req : Request) (k : String) :
    getHeader (fwdHeaders req) k =
      if k = "x-forwarded-host" then some req.hostHdr
      else if k = "x-forwarded-proto" then some req.protocol
      else if k = "x-forwarded-for" then some req.ip
      else getHeader req.headers k := by
  unfold fwdHeaders
  simp only [getHeader_setHeader]

/-- A URL whose tail carries a question mark contains one. -/
theorem contains_question (a b c : String) :
    (a ++ (b ++ ("?" ++ c))).data.contains '?' = true := by
  have h0 : ('?' : Char) ∈ ("?" : String).data := by decide
  have h : ('?' : Char) ∈ (a ++ (b ++ ("?" ++ c))).data := by
    rw [String.data_append, String.data_append, String.data_append]
    exact List.mem_append_right _ (List.mem_append_right _ (List.mem_append_left _ h0))
  exact List.elem_eq_true_of_mem h

/-- Claim C6: a request whose method and path match no registered route
is answered 404 with a structured body whose error field is Route not
found and whose message names the method and URL, and no downstream call
is made. -/
theorem c6_no_route_404 (env : Env) (routers : ServiceId → List RouteRule)
    (net : OutboundCall → DownstreamOutcome) (now : String) (req : Request)
    (hh : ¬(req.method = "GET" ∧ req.path = "/health"))
    (hm : findForward routers mounts req.method req.path = none) :
    gatewayDispatch env routers net now req =
      ({ status := 404, body := render (notFoundBody req) }, []) ∧
    jsonField (notFoundBody req) "error" = some (.str "Route not found") ∧
    jsonField (notFoundBody req) "message" =
      some (.str ("Cannot " ++ req.method ++ " " ++ originalUrl req)) := by
  refine ⟨?_, rfl, rfl⟩
  unfold gatewayDispatch
  rw [if_neg hh, hm]

/-- Witness for C6 at a concrete unroutable request. -/
theorem c6_no_route_404_witness :
    gatewayDispatch envDefault gatewayRouters netRefused "T" reqUnknown =
      ({ status := 404, body := render (notFoundBody reqUnknown) }, []) :=
  (c6_no_route_404 envDefault gatewayRouters netRefused "T" reqUnknown
    (by decide) (by rfl)).1

/-- Claim C7: a request on a registered route triggers exactly one
outbound call, and the response is the immediate translation of that
outcome of that single call: no retry, no cached substitute. -/
theorem c7_exactly_one_call (env : Env) (routers : ServiceId → List RouteRule)
    (net : OutboundCall → DownstreamOutcome) (now : String) (req : Request)
    (s : ServiceId) (stripped : String)
    (hh : ¬(req.method = "GET" ∧ req.path = "/health"))
    (hm : findForward routers mounts req.method req.path = some (s, stripped)) :
    (gatewayDispatch env routers net now req).2 = [mkCall env s stripped req] ∧
    (gatewayDispatch env routers net now req).2.length = 1 ∧
    (gatewayDispatch env routers net now req).1 =
      relayOutcome s (net (mkCall env s stripped req)) := by
  unfold gatewayDispatch
  rw [if_neg hh, hm]
  exact ⟨rfl, rfl, rfl⟩

/-- Witness for C7 at the concrete login request. -/
theorem c7_exactly_one_call_witness :
    (gatewayDispatch envDefault gatewayRouters netRefused "T" reqLogin).2.length = 1 :=
  (c7_exactly_one_call envDefault gatewayRouters netRefused "T" reqLogin
    ServiceId.auth "/login" (by decide) (by rfl)).2.1

/-- Claim C8: every base URL used for forwarding is the environment
variable of its service when set and the fixed localhost default
otherwise, the same resolved value the health endpoint reports; the
resolution is a constant of the embedding, mirroring the const module
bindings of the source. -/
theorem c8_base_url_resolution (env : Env) (now : String) :
    baseURL env .auth = env.AUTH_SERVICE_URL.getD "http://localhost:3001" ∧
    baseURL env .task = env.TASK_SERVICE_URL.getD "http://localhost:3002" ∧
    baseURL env .notification =
      env.NOTIFICATION_SERVICE_URL.getD "http://localhost:3003" ∧
    baseURL env .reporting = env.REPORTING_SERVICE_URL.getD "http://localhost:3004" ∧
    baseURL env .admin = env.ADMIN_SERVICE_URL.getD "http://localhost:3005" ∧
    (∀ s stripped req, ∃ rest,
      (mkCall env s stripped req).url = baseURL env s ++ rest) ∧
    jsonField (healthBody env now) "services" = some (.obj [
      ("auth", .str (baseURL env .auth)), ("task", .str (baseURL env .task)),
      ("notification", .str (baseURL env .notification)),
      ("reporting", .str (baseURL env .reporting)),
      ("admin", .str (baseURL env .admin))]) := by
  refine ⟨rfl, rfl, rfl, rfl, rfl, ?_, rfl⟩
  intro s stripped req
  by_cases hq : req.query.isEmpty = true
  · refine ⟨stripped ++ queryText req.query, ?_⟩
    show buildAxiosURL (baseURL env s ++ (stripped ++ queryText req.query)) req.query = _
    unfold buildAxiosURL
    rw [if_pos hq]
  · by_cases hc : (baseURL env s ++ (stripped ++ queryText req.query)).data.contains '?' = true
    · refine ⟨stripped ++ queryText req.query ++ ("&" ++ serializeQuery req.query), ?_⟩
      show buildAxiosURL (baseURL env s ++ (stripped ++ queryText req.query)) req.query = _
      unfold buildAxiosURL
      rw [if_neg hq, if_pos hc, String.append_assoc, String.append_assoc]
    · refine ⟨stripped ++ queryText req.query ++ ("?" ++ serializeQuery req.query), ?_⟩
      show buildAxiosURL (baseURL env s ++ (stripped ++ queryText req.query)) req.query = _
      unfold buildAxiosURL
      rw [if_neg hq, if_neg hc, String.append_assoc, String.append_assoc]

/-- Witness for C8: with every variable unset the auth base URL resolves
to its fixed default, and a forwarded URL starts with it. -/
theorem c8_base_url_resolution_witness :
    baseURL envDefault ServiceId.auth = "http://localhost:3001" ∧
    ∃ rest, (mkCall envDefault ServiceId.auth "/login" reqLogin).url =
      baseURL envDefault ServiceId.auth ++ rest :=
  ⟨(c8_base_url_resolution envDefault "T").1.trans rfl,
   (c8_base_url_resolution envDefault "T").2.2.2.2.2.1 ServiceId.auth "/login" reqLogin⟩

/-- Claim C10: for a routed request the forwarding handler produces its
single response totally, for every possible downstream outcome, and the
body is always the serialization of a JSON value: both failure shapes are
converted inside the handler, so the global error middleware is not
reached from the forwarding path (the handler is a total function in
this embedding). -/
theorem c10_handler_total_json (env : Env) (routers : ServiceId → List RouteRule)
    (net : OutboundCall → DownstreamOutcome) (now : String) (req : Request)
    (s : ServiceId) (stripped : String)
    (hh : ¬(req.method = "GET" ∧ req.path = "/health"))
    (hm : findForward routers mounts req.method req.path = some (s, stripped)) :
    (gatewayDispatch env routers net now req).1 =
      relayOutcome s (net (mkCall env s stripped req)) ∧
    ∃ j, (gatewayDispatch env routers net now req).1.body = render j := by
  unfold gatewayDispatch
  rw [if_neg hh, hm]
  refine ⟨rfl, ?_⟩
  cases hx : net (mkCall env s stripped req) with
  | response st d =>
      exact ⟨dataJson d, by simp [forwardToService, relayOutcome, hx]⟩
  | noResponse r =>
      exact ⟨unavailableBody s, by simp [forwardToService, relayOutcome, hx]⟩

/-- Witness for C10 at the concrete login request over a dead network. -/
theorem c10_handler_total_json_witness :
    ∃ j, (gatewayDispatch envDefault gatewayRouters netRefused "T" reqLogin).1.body
      = render j :=
  (c10_handler_total_json envDefault gatewayRouters netRefused "T" reqLogin
    ServiceId.auth "/login" (by decide) (by rfl)).2

/-- Claim C4: the outbound header map equals the inbound one plus exactly
the three x-forwarded entries, set to the client IP, the inbound scheme
and the inbound host; every other inbound header reads through
unchanged. -/
theorem c4_forward_headers (env : Env) (s : ServiceId) (stripped : String)
    (req : Request) :
    getHeader (mkCall env s stripped req).headers "x-forwarded-for" = some req.ip ∧
    getHeader (mkCall env s stripped req).headers "x-forwarded-proto" =
      some req.protocol ∧
    getHeader (mkCall env s stripped req).headers "x-forwarded-host" =
      some req.hostHdr ∧
    ∀ k, k ≠ "x-forwarded-for" → k ≠ "x-forwarded-proto" →
      k ≠ "x-forwarded-host" →
      getHeader (mkCall env s stripped req).headers k = getHeader req.headers k := by
  refine ⟨?_, ?_, ?_, ?_⟩
  · show getHeader (fwdHeaders req) "x-forwarded-for" = some req.ip
    rw [getHeader_fwdHeaders, if_neg (by decide), if_neg (by decide), if_pos rfl]
  · show getHeader (fwdHeaders req) "x-forwarded-proto" = some req.protocol
    rw [getHeader_fwdHeaders, if_neg (by decide), if_pos rfl]
  · show getHeader (fwdHeaders req) "x-forwarded-host" = some req.hostHdr
    rw [getHeader_fwdHeaders, if_pos rfl]
  · intro k h1 h2 h3
    show getHeader (fwdHeaders req) k = getHeader req.headers k
    rw [getHeader_fwdHeaders, if_neg h3, if_neg h2, if_neg h1]

/-- Witness for C4: both an added entry and a read-through entry at a
concrete request. -/
theorem c4_forward_headers_witness :
    getHeader (mkCall envDefault ServiceId.task "/abc123" reqTaskQuery).headers
      "x-forwarded-for" = some "1.2.3.4" ∧
    getHeader (mkCall envDefault ServiceId.task "/abc123" reqTaskQuery).headers
      "authorization" = some "Bearer tok" :=
  ⟨(c4_forward_headers envDefault ServiceId.task "/abc123" reqTaskQuery).1,
   by
    rw [(c4_forward_headers envDefault ServiceId.task "/abc123" reqTaskQuery).2.2.2
      "authorization" (by decide) (by decide) (by decide)]
    rfl⟩

/-- Claim C9: the authorization header is relayed with its value
unchanged, and the rest of the outbound call is independent of that
value: changing it changes nothing but that one header entry. -/
theorem c9_authorization_untouched (env : Env) (s : ServiceId) (stripped : String)
    (req : Request) (v : String) :
    getHeader (mkCall env s stripped req).headers "authorization" =
      getHeader req.headers "authorization" ∧
    (mkCall env s stripped
      { req with headers := setHeader req.headers "authorization" v }).url =
      (mkCall env s stripped req).url ∧
    (mkCall env s stripped
      { req with headers := setHeader req.headers "authorization" v }).method =
      (mkCall env s stripped req).method ∧
    (mkCall env s stripped
      { req with headers := setHeader req.headers "authorization" v }).body =
      (mkCall env s stripped req).body ∧
    getHeader (mkCall env s stripped
      { req with headers := setHeader req.headers "authorization" v }).headers
      "authorization" = some v ∧
    ∀ k, k ≠ "authorization" →
      getHeader (mkCall env s stripped
        { req with headers := setHeader req.headers "authorization" v }).headers k =
      getHeader (mkCall env s stripped req).headers k := by
  refine ⟨?_, rfl, rfl, rfl, ?_, ?_⟩
  · show getHeader (fwdHeaders req) "authorization" = getHeader req.headers "authorization"
    rw [getHeader_fwdHeaders, if_neg (by decide), if_neg (by decide), if_neg (by decide)]
  · show getHeader
      (fwdHeaders { req with headers := setHeader req.headers "authorization" v })
      "authorization" = some v
    rw [getHeader_fwdHeaders, if_neg (by decide), if_neg (by decide), if_neg (by decide),
      getHeader_setHeader, if_pos rfl]
  · intro k hk
    show getHeader
      (fwdHeaders { req with headers := setHeader req.headers "authorization" v }) k =
      getHeader (fwdHeaders req) k
    rw [getHeader_fwdHeaders, getHeader_fwdHeaders, getHeader_setHeader, if_neg hk]

/-- Witness for C9 at a concrete request carrying a bearer token. -/
theorem c9_authorization_untouched_witness :
    getHeader (mkCall envDefault ServiceId.task "/abc123" reqTaskQuery).headers
      "authorization" = some "Bearer tok" ∧
    (mkCall envDefault ServiceId.task "/abc123"
      { reqTaskQuery with
        headers := setHeader reqTaskQuery.headers "authorization" "Bearer other" }).url =
      (mkCall envDefault ServiceId.task "/abc123" reqTaskQuery).url :=
  ⟨by
    rw [(c9_authorization_untouched envDefault ServiceId.task "/abc123" reqTaskQuery
      "Bearer other").1]
    rfl,
   (c9_authorization_untouched envDefault ServiceId.task "/abc123" reqTaskQuery
      "Bearer other").2.1⟩

/-- Claim C1 as amended: when no HTTP response is received from the
backend of a routed request, the gateway responds with status 500 (the
source sends 500, not the 503 the claim states) and the JSON body whose
error field is the service display name followed by Unavailable. -/
theorem c1_unavailable_500 (env : Env) (routers : ServiceId → List RouteRule)
    (net : OutboundCall → DownstreamOutcome) (now : String) (req : Request)
    (s : ServiceId) (stripped : String) (reason : String)
    (hh : ¬(req.method = "GET" ∧ req.path = "/health"))
    (hm : findForward routers mounts req.method req.path = some (s, stripped))
    (hnet : net (mkCall env s stripped req) = .noResponse reason) :
    (gatewayDispatch env routers net now req).1.status = 500 ∧
    (gatewayDispatch env routers net now req).1.body = render (unavailableBody s) ∧
    jsonField (unavailableBody s) "error" =
      some (.str (displayName s ++ " Unavailable")) := by
  unfold gatewayDispatch
  rw [if_neg hh, hm]
  refine ⟨?_, ?_, rfl⟩
  · show (relayOutcome s (net (mkCall env s stripped req))).status = 500
    rw [hnet]
    rfl
  · show (relayOutcome s (net (mkCall env s stripped req))).body = _
    rw [hnet]
    rfl

/-- Counterexample to C1 as stated: the concrete login request against an
unreachable auth backend is answered 500, not 503. -/
theorem c1_counterexample :
    (gatewayDispatch envDefault gatewayRouters netRefused "T" reqLogin).1.status = 500 ∧
    (gatewayDispatch envDefault gatewayRouters netRefused "T" reqLogin).1.status ≠ 503 ∧
    (gatewayDispatch envDefault gatewayRouters netRefused "T" reqLogin).1.body =
      render (unavailableBody ServiceId.auth) :=
  ⟨rfl, by decide, rfl⟩

/-- Witness for the amended C1 at a concrete admin request. -/
theorem c1_unavailable_500_witness :
    (gatewayDispatch envDefault gatewayRouters netRefused "T" reqUsers).1.status = 500 :=
  (c1_unavailable_500 envDefault gatewayRouters netRefused "T" reqUsers
    ServiceId.admin "/users" "ECONNREFUSED" (by decide) (by rfl) (by rfl)).1

/-- Claim C2 as amended: on any well-formed backend response the gateway
relays the status unchanged, and the body it sends is the JSON
re-serialization of the backend body: byte-for-byte equal whenever that
body is the canonical serialization of a JSON value, but re-encoded (and
so different) for bodies that are not valid JSON. -/
theorem c2_relay_verbatim (env : Env) (routers : ServiceId → List RouteRule)
    (net : OutboundCall → DownstreamOutcome) (now : String) (req : Request)
    (s : ServiceId) (stripped : String) (st : Nat) (d : AxiosData)
    (hh : ¬(req.method = "GET" ∧ req.path = "/health"))
    (hm : findForward routers mounts req.method req.path = some (s, stripped))
    (hnet : net (mkCall env s stripped req) = .response st d) :
    (gatewayDispatch env routers net now req).1.status = st ∧
    (gatewayDispatch env routers net now req).1.body = render (dataJson d) ∧
    (∀ j, d = .jsonData j →
      (gatewayDispatch env routers net now req).1.body = backendBytes d) := by
  unfold gatewayDispatch
  rw [if_neg hh, hm]
  refine ⟨?_, ?_, ?_⟩
  · show (relayOutcome s (net (mkCall env s stripped req))).status = st
    rw [hnet]
    rfl
  · show (relayOutcome s (net (mkCall env s stripped req))).body = _
    rw [hnet]
    rfl
  · intro j hj
    show (relayOutcome s (net (mkCall env s stripped req))).body = _
    rw [hnet, hj]
    rfl

/-- Counterexample to C2 as stated: a backend 404 whose body is the plain
text hello is relayed with the status intact but the body re-encoded as a
JSON string, so the relayed body differs from the backend bytes. -/
theorem c2_counterexample :
    (gatewayDispatch envDefault gatewayRouters netText404 "T" reqUsers).1.status = 404 ∧
    backendBytes (AxiosData.textData "hello") = "hello" ∧
    (gatewayDispatch envDefault gatewayRouters netText404 "T" reqUsers).1.body ≠
      "hello" ∧
    (gatewayDispatch envDefault gatewayRouters netText404 "T" reqUsers).1.body =
      "\"hello\"" :=
  ⟨rfl, rfl, by decide, rfl⟩

/-- Witness for the amended C2: a JSON 201 body is relayed
byte-for-byte. -/
theorem c2_relay_verbatim_witness :
    (gatewayDispatch envDefault gatewayRouters netJson201 "T" reqUsers).1.body =
      backendBytes (AxiosData.jsonData (Json.obj [("ok", Json.bool true)])) :=
  (c2_relay_verbatim envDefault gatewayRouters netJson201 "T" reqUsers
    ServiceId.admin "/users" 201 (AxiosData.jsonData (Json.obj [("ok", Json.bool true)]))
    (by decide) (by rfl) (by rfl)).2.2 _ rfl

/-- Claim C3 as amended: the outbound URL is the backend base URL plus
the inbound path with the mount piece removed (not the full inbound
path), plus the original query text, plus a second copy of the query
appended by the axios params serializer whenever the query is
nonempty. -/
theorem c3_forward_url (env : Env) (routers : ServiceId → List RouteRule)
    (net : OutboundCall → DownstreamOutcome) (now : String) (req : Request)
    (s : ServiceId) (stripped : String)
    (hh : ¬(req.method = "GET" ∧ req.path = "/health"))
    (hm : findForward routers mounts req.method req.path = some (s, stripped)) :
    (gatewayDispatch env routers net now req).2.map (fun c => c.url) =
      [baseURL env s ++ (stripped ++ queryText req.query ++
        (if req.query.isEmpty then "" else "&" ++ serializeQuery req.query))] := by
  unfold gatewayDispatch
  rw [if_neg hh, hm]
  show [(mkCall env s stripped req).url] = _
  by_cases hq : req.query.isEmpty = true
  · rw [if_pos hq]
    show [buildAxiosURL (baseURL env s ++ (stripped ++ queryText req.query)) req.query] = _
    unfold buildAxiosURL
    rw [if_pos hq, String.append_empty]
  · rw [if_neg hq]
    have hqt : queryText req.query = "?" ++ serializeQuery req.query := by
      unfold queryText
      rw [if_neg hq]
    have hc : (baseURL env s ++ (stripped ++ queryText req.query)).data.contains '?'
        = true := by
      rw [hqt]
      exact contains_question _ _ _
    show [buildAxiosURL (baseURL env s ++ (stripped ++ queryText req.query)) req.query] = _
    unfold buildAxiosURL
    rw [if_neg hq, if_pos hc, String.append_assoc, String.append_assoc,
      String.append_assoc]

/-- Counterexample to C3 as stated: the spec scenario request
GET /api/tasks/abc123?verbose=true is dispatched to
/abc123?verbose=true&verbose=true under the task base URL: the mount
piece is stripped and the query is doubled, not preserved once. -/
theorem c3_counterexample :
    (gatewayDispatch envDefault gatewayRouters netRefused "T" reqTaskQuery).2.map
      (fun c => c.url) = ["http://localhost:3002/abc123?verbose=true&verbose=true"] ∧
    (gatewayDispatch envDefault gatewayRouters netRefused "T" reqTaskQuery).2.map
      (fun c => c.url) ≠ ["http://localhost:3002/api/tasks/abc123?verbose=true"] :=
  ⟨rfl, by decide⟩

/-- Witness for the amended C3 at the spec scenario request. -/
theorem c3_forward_url_witness :
    (gatewayDispatch envDefault gatewayRouters netRefused "T" reqTaskQuery).2.map
      (fun c => c.url) =
      [baseURL envDefault ServiceId.task ++ ("/abc123" ++ queryText reqTaskQuery.query ++
        (if reqTaskQuery.query.isEmpty then ""
         else "&" ++ serializeQuery reqTaskQuery.query))] :=
  c3_forward_url envDefault gatewayRouters netRefused "T" reqTaskQuery
    ServiceId.task "/abc123" (by decide) (by rfl)

/-- Claim C5 as amended: the gateway health endpoint answers 200 with a
static JSON body carrying status OK, a message, a timestamp and the
configured base URL of each of the five services; it performs no
outbound call at all and its body carries no per-service outcome and no
overallHealthy field. -/
theorem c5_health_static (env : Env) (routers : ServiceId → List RouteRule)
    (net : OutboundCall → DownstreamOutcome) (now : String) (req : Request)
    (hm : req.method = "GET") (hp : req.path = "/health") :
    gatewayDispatch env routers net now req =
      ({ status := 200, body := render (healthBody env now) }, []) ∧
    jsonField (healthBody env now) "overallHealthy" = none ∧
    jsonField (healthBody env now) "status" = some (.str "OK") := by
  refine ⟨?_, rfl, rfl⟩
  unfold gatewayDispatch
  rw [if_pos ⟨hm, hp⟩]

/-- Counterexample to C5 as stated: the concrete health request makes
zero outbound calls, not one per registered service, and its body has no
overallHealthy field. -/
theorem c5_counterexample :
    (gatewayDispatch envDefault gatewayRouters netRefused "T" reqHealth).2.length = 0 ∧
    (gatewayDispatch envDefault gatewayRouters netRefused "T" reqHealth).2.length ≠ 5 ∧
    jsonField (healthBody envDefault "T") "overallHealthy" = none ∧
    (gatewayDispatch envDefault gatewayRouters netRefused "T" reqHealth).1.body =
      render (healthBody envDefault "T") :=
  ⟨rfl, by decide, rfl, rfl⟩

/-- Witness for the amended C5 at the concrete health request. -/
theorem c5_health_static_witness :
    gatewayDispatch envDefault gatewayRouters netRefused "T" reqHealth =
      ({ status := 200, body := render (healthBody envDefault "T") }, []) :=
  (c5_health_static envDefault gatewayRouters netRefused "T" reqHealth rfl rfl).1

end Gateway
